import Mathlib

/-!
Shallow embedding of the authentication and credential-recovery workflow of
the reddit-clone repository, translated from
`src/server/src/resolvers/user.ts`.

External collaborators (Postgres via mikro-orm/knex, the ioredis client, the
argon2 hasher, the uuid generator, the nodemailer transport, the
express-session store) are modelled as explicit state or as function
parameters of the resolver; the resolver bodies themselves are translated
line by line from the source.  Each operation additionally returns a trace of
the I/O effects it performed, in order, so that "does not consult the token
store" style properties can be stated.
-/

set_option autoImplicit false

namespace RedditClone

/-- A `{field, message}` pair, from the `FieldError` ObjectType. -/
structure FieldError where
  field : String
  message : String
  deriving Repr, DecidableEq

/-- The persistent `User` entity: id, username, email, password hash and the
two timestamps written by `register`. -/
structure User where
  id : Nat
  username : String
  email : String
  password : String
  createdAt : Nat
  updatedAt : Nat
  deriving Repr, DecidableEq

/-- The `UserResponse` envelope: both fields are optional in the GraphQL
type, so nothing structural forces exactly one of them to be present. -/
structure UserResponse where
  errors : Option (List FieldError) := none
  user : Option User := none
  deriving Repr, DecidableEq

/-- The `register` mutation's input object. -/
structure UsernamePasswordInput where
  email : String
  username : String
  password : String
  deriving Repr, DecidableEq

/-- One redis key/value pair together with the expiry passed to
`redis.set(key, value, "ex", seconds)`.  Per the redis `SET` command the
`EX` option is a number of seconds. -/
structure RedisEntry where
  key : String
  value : String
  expirySeconds : Nat
  deriving Repr, DecidableEq

/-- `redis.set` with the `ex` option: replaces any entry under the key. -/
def redisSet (store : List RedisEntry) (key value : String) (ex : Nat) :
    List RedisEntry :=
  store.filter (fun e => e.key != key) ++ [⟨key, value, ex⟩]

/-- `redis.get`: `none` models a `null` reply. -/
def redisGet (store : List RedisEntry) (key : String) : Option String :=
  (store.find? (fun e => e.key == key)).map (fun e => e.value)

/-- `redis.del`. -/
def redisDel (store : List RedisEntry) (key : String) : List RedisEntry :=
  store.filter (fun e => e.key != key)

/-- The whole mutable world a resolver touches: the `user` table, the redis
token store, the caller's session (`req.session.userId`), and the mails the
transport has sent. -/
structure World where
  db : List User
  redis : List RedisEntry
  session : Option Nat
  sentEmails : List (String × String)
  deriving Repr, DecidableEq

/-- The I/O effects a resolver can perform, recorded in order. -/
inductive Effect where
  | dbFindByEmail (email : String)
  | dbFindByUsername (username : String)
  | dbFindById (id : Option Int)
  | dbInsertRow (username email passwordHash : String)
  | dbUpdatePassword (id : Nat) (passwordHash : String)
  | hashPassword (plaintext : String)
  | verifyPassword (hashValue plaintext : String)
  | redisGetKey (key : String)
  | redisSetKey (key value : String) (expirySeconds : Nat)
  | redisDelKey (key : String)
  | sessionSetUserId (id : Nat)
  | emailSend (recipient body : String)
  deriving Repr, DecidableEq

/-- Modelled from the spec: the `FORGOT_PASSWORD_PREFIX` constant lives in
`src/server/src/constants.ts`, which is not part of the provided sources; the
spec only requires the token keyspace to be namespaced by a fixed string, and
no claim depends on its exact value. -/
def FORGOT_PASSWORD_KEY_NS : String := "forget-password:"

/-- JavaScript `String.prototype.includes`: substring containment, i.e. the
needle's characters form a contiguous infix of the subject's characters. -/
def jsIncludes (needle s : String) : Bool :=
  decide (needle.data <:+: s.data)

/-- Digit run to a number, most significant first. -/
def digitsToNat (ds : List Char) : Nat :=
  ds.foldl (fun a c => a * 10 + (c.toNat - 48)) 0

/-- JavaScript `parseInt` restricted to base 10: skip leading whitespace,
accept an optional sign, then the longest digit run; `none` models `NaN`. -/
def parseIntJS (s : String) : Option Int :=
  match s.data.dropWhile (fun c => c.isWhitespace) with
  | '-' :: rest =>
    let ds := rest.takeWhile (fun c => c.isDigit)
    if ds.isEmpty then none else some (-(digitsToNat ds : Int))
  | '+' :: rest =>
    let ds := rest.takeWhile (fun c => c.isDigit)
    if ds.isEmpty then none else some ((digitsToNat ds : Int))
  | rest =>
    let ds := rest.takeWhile (fun c => c.isDigit)
    if ds.isEmpty then none else some ((digitsToNat ds : Int))

/-- The knex `insert` inside `register`: `fault` injects an arbitrary driver
failure (its `detail` string); with no fault the insert reaches Postgres,
where only the uniqueness constraints on `username` and `email` can reject
it, each with a Postgres detail message containing "already exists". -/
def pgInsertUser (db : List User) (fault : Option String)
    (username passwordHash email : String) (nextId now : Nat) :
    Except String (User × List User) :=
  match fault with
  | some detail => .error detail
  | none =>
    if db.any (fun u => u.username == username) then
      .error ("Key (username)=(" ++ username ++ ") already exists.")
    else if db.any (fun u => u.email == email) then
      .error ("Key (email)=(" ++ email ++ ") already exists.")
    else
      let user : User := ⟨nextId, username, email, passwordHash, now, now⟩
      .ok (user, db ++ [user])

/-- The `register` resolver.  `validate` is the external `validateRegister`
policy, `hash` is `argon2.hash`, `nextId`/`now` are the generated id and the
`new Date()` timestamp.  The `Except` error is a thrown JavaScript
`TypeError`: when the insert fails with a detail not containing
"already exists", the `catch` block falls through without returning, the
local `user` binding stays `undefined`, and `req.session.userId = user.id`
throws. -/
def register (validate : UsernamePasswordInput → Option (List FieldError))
    (hash : String → String) (fault : Option String) (nextId now : Nat)
    (w : World) (options : UsernamePasswordInput) :
    Except String (UserResponse × World) × List Effect :=
  match validate options with
  | some errors => (.ok ({ errors := some errors }, w), [])
  | none =>
    let hashedPassword := hash options.password
    match pgInsertUser w.db fault options.username hashedPassword options.email
        nextId now with
    | .error detail =>
      if jsIncludes "already exists" detail then
        (.ok ({ errors := some [⟨"username", "username already taken"⟩] }, w),
         [.hashPassword options.password,
          .dbInsertRow options.username options.email hashedPassword])
      else
        (.error "TypeError: Cannot read property id of undefined",
         [.hashPassword options.password,
          .dbInsertRow options.username options.email hashedPassword])
    | .ok (user, newDb) =>
      (.ok ({ user := some user },
            { w with db := newDb, session := some user.id }),
       [.hashPassword options.password,
        .dbInsertRow options.username options.email hashedPassword,
        .sessionSetUserId user.id])

/-- The `login` resolver.  `verify` is `argon2.verify(hash, plain)`. -/
def login (verify : String → String → Bool) (w : World)
    (usernameOrEmail password : String) :
    UserResponse × World × List Effect :=
  let byEmail := jsIncludes "@" usernameOrEmail
  let user :=
    if byEmail then w.db.find? (fun u => u.email == usernameOrEmail)
    else w.db.find? (fun u => u.username == usernameOrEmail)
  let findEff :=
    if byEmail then Effect.dbFindByEmail usernameOrEmail
    else Effect.dbFindByUsername usernameOrEmail
  match user with
  | none =>
    ({ errors := some [⟨"usernameOrEmail", "username or email doesn't exist"⟩] },
     w, [findEff])
  | some u =>
    if verify u.password password then
      ({ user := some u }, { w with session := some u.id },
       [findEff, .verifyPassword u.password password, .sessionSetUserId u.id])
    else
      ({ errors := some [⟨"password", "incorrect password"⟩] }, w,
       [findEff, .verifyPassword u.password password])

/-- The `<a href=...>` body `forgotPassword` hands to `sendEmail`. -/
def emailBodyFor (token : String) : String :=
  "<a href=\"http://localhost:3000/change-password/" ++ token ++
    "\"> reset password </a>"

/-- The `forgotPassword` resolver.  `token` is the fresh `v4()` uuid.  The
expiry argument is translated literally: the source passes
`1000 * 60 * 60 * 24 * 3` to the seconds-valued `ex` option (its comment
says "3 days"). -/
def forgotPassword (token : String) (w : World) (email : String) :
    Bool × World × List Effect :=
  match w.db.find? (fun u => u.email == email) with
  | none => (true, w, [.dbFindByEmail email])
  | some user =>
    let key := FORGOT_PASSWORD_KEY_NS ++ token
    let ex := 1000 * 60 * 60 * 24 * 3
    (true,
     { w with
        redis := redisSet w.redis key (toString user.id) ex,
        sentEmails := w.sentEmails ++ [(email, emailBodyFor token)] },
     [.dbFindByEmail email, .redisSetKey key (toString user.id) ex,
      .emailSend email (emailBodyFor token)])

/-- The `changePassword` resolver.  `hash` is `argon2.hash`.  The stored
redis value is a string; `if (!userId)` is true on a `null` reply and on the
(unreachable for values we write) empty string, both JavaScript-falsy. -/
def changePassword (hash : String → String) (w : World)
    (token newPassword : String) : UserResponse × World × List Effect :=
  if newPassword.length ≤ 2 then
    ({ errors := some [⟨"newPassword", "length must be greater than 2"⟩] },
     w, [])
  else
    let redisKey := FORGOT_PASSWORD_KEY_NS ++ token
    match redisGet w.redis redisKey with
    | none =>
      ({ errors := some [⟨"token", "token expired"⟩] }, w,
       [.redisGetKey redisKey])
    | some v =>
      if v == "" then
        ({ errors := some [⟨"token", "token expired"⟩] }, w,
         [.redisGetKey redisKey])
      else
        let uid := parseIntJS v
        match w.db.find? (fun u => uid == some (Int.ofNat u.id)) with
        | none =>
          ({ errors := some [⟨"token", "user no longer exists"⟩] }, w,
           [.redisGetKey redisKey, .dbFindById uid])
        | some user =>
          let hashed := hash newPassword
          ({ user := some { user with password := hashed } },
           { w with
              db := w.db.map (fun u =>
                if u.id == user.id then { u with password := hashed } else u),
              redis := redisDel w.redis redisKey,
              session := some user.id },
           [.redisGetKey redisKey, .dbFindById uid, .hashPassword newPassword,
            .dbUpdatePassword user.id hashed, .redisDelKey redisKey,
            .sessionSetUserId user.id])

/-! ### Store lemmas -/

/-- Filtering out a key removes every entry `find?` could return for it. -/
theorem find?_filter_ne (store : List RedisEntry) (key : String) :
    (store.filter (fun e => e.key != key)).find? (fun e => e.key == key)
      = none := by
  induction store with
  | nil => rfl
  | cons e rest ih =>
    by_cases h : e.key = key <;>
      simp_all [List.filter_cons, List.find?_cons, bne]

/-- After `redis.del key`, `redis.get key` replies `null`. -/
theorem redisGet_redisDel_self (store : List RedisEntry) (key : String) :
    redisGet (redisDel store key) key = none := by
  simp [redisGet, redisDel, find?_filter_ne]

/-- After `redis.set key value ex`, `redis.get key` replies the value. -/
theorem redisGet_redisSet_self (store : List RedisEntry) (key value : String)
    (ex : Nat) :
    redisGet (redisSet store key value ex) key = some value := by
  simp [redisGet, redisSet, List.find?_append, find?_filter_ne, List.find?]
  exact ⟨⟨key, value, ex⟩, Or.inr rfl, rfl⟩

/-- A needle contained in `s₂` is contained in any `s₁ ++ s₂`. -/
theorem jsIncludes_append_right (needle s₁ s₂ : String)
    (h : jsIncludes needle s₂ = true) :
    jsIncludes needle (s₁ ++ s₂) = true := by
  simp only [jsIncludes, decide_eq_true_eq, String.data_append] at h ⊢
  exact h.trans (List.suffix_append _ _).isInfix

/-! ### Concrete worlds used by the closed theorems -/

def aliceUser : User := ⟨7, "alice", "alice@example.com", "H", 0, 0⟩

def aliceWorld : World := ⟨[aliceUser], [], none, []⟩

def bobUser : User := ⟨3, "bob", "bob@x.com", "H", 0, 0⟩

def bobWorld : World := ⟨[bobUser], [], none, []⟩

/-! ### Claims -/

/-- C1: the spec says the reset token is stored with a fixed time-to-live of
3 days, and the source's own comment says "3 days", but the code passes
`1000 * 60 * 60 * 24 * 3` (a milliseconds count) to the seconds-valued `ex`
option of `redis.set`: at a matching email the stored expiry is 259200000
seconds (3000 days), not the 259200 seconds of 3 days. -/
theorem forgotPassword_expiry_is_milliseconds :
    (forgotPassword "tok" aliceWorld "alice@example.com").snd.fst.redis =
      [⟨FORGOT_PASSWORD_KEY_NS ++ "tok", "7", 259200000⟩] ∧
    (259200000 : Nat) ≠ 60 * 60 * 24 * 3 := by
  exact ⟨by decide, by decide⟩

/-- C2: `forgotPassword` returns `true` for every email; when no user has
the email, the world (db, token store, session, sent mail) is unchanged;
when a user matches, the token is stored under the namespaced key mapped to
that user's id and exactly one reset mail to that address is appended. -/
theorem forgotPassword_spec (token email : String) (w : World) :
    (forgotPassword token w email).fst = true ∧
    (w.db.find? (fun u => u.email == email) = none →
      (forgotPassword token w email).snd.fst = w) ∧
    (∀ u, w.db.find? (fun u => u.email == email) = some u →
      redisGet (forgotPassword token w email).snd.fst.redis
          (FORGOT_PASSWORD_KEY_NS ++ token) = some (toString u.id) ∧
      (forgotPassword token w email).snd.fst.sentEmails =
        w.sentEmails ++ [(email, emailBodyFor token)]) := by
  unfold forgotPassword
  cases hf : w.db.find? (fun u => u.email == email) with
  | none => simp
  | some u =>
    refine ⟨rfl, by simp, ?_⟩
    intro u2 hu2
    cases hu2
    exact ⟨redisGet_redisSet_self _ _ _ _, rfl⟩

/-- C2 witness: at a world holding bob, `forgotPassword` returns true,
stores bob's id under the token key, and sends him the reset mail. -/
theorem forgotPassword_spec_witness :
    (forgotPassword "t" bobWorld "bob@x.com").fst = true ∧
    redisGet (forgotPassword "t" bobWorld "bob@x.com").snd.fst.redis
        (FORGOT_PASSWORD_KEY_NS ++ "t") = some "3" ∧
    (forgotPassword "t" bobWorld "bob@x.com").snd.fst.sentEmails =
      [("bob@x.com", emailBodyFor "t")] := by
  have h := forgotPassword_spec "t" "bob@x.com" bobWorld
  have h2 := h.2.2 bobUser (by decide)
  exact ⟨h.1, h2.1, h2.2⟩

/-- C7: `changePassword` with a `newPassword` of length at most 2 returns
only the `newPassword` FieldError, leaves the world untouched, and performs
no effect at all: no token-store read, no user lookup, no write. -/
theorem changePassword_short_newPassword (hash : String → String) (w : World)
    (token newPassword : String) (hlen : newPassword.length ≤ 2) :
    changePassword hash w token newPassword =
      ({ errors := some [⟨"newPassword", "length must be greater than 2"⟩] },
       w, []) := by
  unfold changePassword
  simp [hlen]

/-- C7 witness: the short password "ab" is rejected with no effects. -/
theorem changePassword_short_newPassword_witness :
    changePassword (fun s => s) bobWorld "tok" "ab" =
      ({ errors := some [⟨"newPassword", "length must be greater than 2"⟩] },
       bobWorld, []) :=
  changePassword_short_newPassword (fun s => s) bobWorld "tok" "ab" (by decide)

/-- C8: when `validateRegister` reports errors, `register` returns exactly
those errors, the world is unchanged, and the effect trace is empty: no
hash is computed, no row inserted, no session write. -/
theorem register_validation_error
    (validate : UsernamePasswordInput → Option (List FieldError))
    (hash : String → String) (fault : Option String) (nextId now : Nat)
    (w : World) (options : UsernamePasswordInput) (errs : List FieldError)
    (hval : validate options = some errs) :
    register validate hash fault nextId now w options =
      (.ok ({ errors := some errs }, w), []) := by
  unfold register
  rw [hval]

/-- C8 witness: a validator rejecting the email makes `register` echo that
error with no side effects. -/
theorem register_validation_error_witness :
    register (fun _ => some [⟨"email", "invalid email"⟩]) (fun s => s) none
        1 0 bobWorld ⟨"x", "y", "z"⟩ =
      (.ok ({ errors := some [⟨"email", "invalid email"⟩] }, bobWorld), []) :=
  register_validation_error (fun _ => some [⟨"email", "invalid email"⟩])
    (fun s => s) none 1 0 bobWorld ⟨"x", "y", "z"⟩
    [⟨"email", "invalid email"⟩] rfl

def emptyWorld : World := ⟨[], [], none, []⟩

def regOptions : UsernamePasswordInput := ⟨"carol@x.com", "carol", "pw"⟩

def carolUser : User := ⟨1, "carol", "carol@x.com", "pw", 0, 0⟩

def carolWorld : World := ⟨[carolUser], [], some 1, []⟩

/-- C4: when the insert is rejected by a uniqueness constraint (a username
or email already present in the table), `register` returns exactly one
FieldError, on field "username" with message "username already taken". -/
theorem register_duplicate_username
    (validate : UsernamePasswordInput → Option (List FieldError))
    (hash : String → String) (nextId now : Nat) (w : World)
    (options : UsernamePasswordInput)
    (hval : validate options = none)
    (hdup : (w.db.any (fun u => u.username == options.username) ||
             w.db.any (fun u => u.email == options.email)) = true) :
    (register validate hash none nextId now w options).fst =
      .ok ({ errors := some [⟨"username", "username already taken"⟩] }, w) := by
  cases hU : w.db.any (fun u => u.username == options.username) with
  | true =>
    have hinc : jsIncludes "already exists"
        ("Key (username)=(" ++ options.username ++ ") already exists.") =
          true :=
      jsIncludes_append_right _ _ _ (by decide)
    simp [register, pgInsertUser, hval, hU, hinc]
  | false =>
    have hE : w.db.any (fun u => u.email == options.email) = true := by
      simpa [hU] using hdup
    have hinc : jsIncludes "already exists"
        ("Key (email)=(" ++ options.email ++ ") already exists.") = true :=
      jsIncludes_append_right _ _ _ (by decide)
    simp [register, pgInsertUser, hval, hU, hE, hinc]

/-- C4 witness: on an empty table, registering carol succeeds; an immediate
second registration with the same username yields the single
"username already taken" FieldError. -/
theorem register_duplicate_username_witness :
    (register (fun _ => none) (fun s => s) none 1 0 emptyWorld
        regOptions).fst = .ok ({ user := some carolUser }, carolWorld) ∧
    (register (fun _ => none) (fun s => s) none 2 0 carolWorld
        regOptions).fst =
      .ok ({ errors := some [⟨"username", "username already taken"⟩] },
           carolWorld) := by
  refine ⟨rfl, ?_⟩
  exact register_duplicate_username (fun _ => none) (fun s => s) 2 0
    carolWorld regOptions rfl (by decide)

/-- C5: `login` dispatches the lookup on the presence of an `@` character:
with one, the database effect performed is a find-by-email on the whole
input; without, a find-by-username; and in either branch a failed lookup
returns the FieldError on "usernameOrEmail". -/
theorem login_lookup_dispatch (verify : String → String → Bool) (w : World)
    (usernameOrEmail password : String) :
    (jsIncludes "@" usernameOrEmail = true →
      (login verify w usernameOrEmail password).snd.snd.head? =
        some (Effect.dbFindByEmail usernameOrEmail) ∧
      (w.db.find? (fun u => u.email == usernameOrEmail) = none →
        (login verify w usernameOrEmail password).fst =
          { errors :=
              some [⟨"usernameOrEmail", "username or email doesn't exist"⟩] })) ∧
    (jsIncludes "@" usernameOrEmail = false →
      (login verify w usernameOrEmail password).snd.snd.head? =
        some (Effect.dbFindByUsername usernameOrEmail) ∧
      (w.db.find? (fun u => u.username == usernameOrEmail) = none →
        (login verify w usernameOrEmail password).fst =
          { errors :=
              some [⟨"usernameOrEmail", "username or email doesn't exist"⟩] })) := by
  constructor
  · intro hat
    simp only [login, hat]
    cases hf : w.db.find? (fun u => u.email == usernameOrEmail) with
    | none => simp [hf]
    | some u => by_cases hv : verify u.password password <;> simp [hf, hv]
  · intro hat
    simp only [login, hat]
    cases hf : w.db.find? (fun u => u.username == usernameOrEmail) with
    | none => simp [hf]
    | some u => by_cases hv : verify u.password password <;> simp [hf, hv]

/-- C5 witness: on an empty table, "a@b" is looked up by email and "ab" by
username, and both report the "usernameOrEmail" FieldError. -/
theorem login_lookup_dispatch_witness :
    (login (fun _ _ => false) emptyWorld "a@b" "pw").snd.snd.head? =
      some (Effect.dbFindByEmail "a@b") ∧
    (login (fun _ _ => false) emptyWorld "a@b" "pw").fst =
      { errors :=
          some [⟨"usernameOrEmail", "username or email doesn't exist"⟩] } ∧
    (login (fun _ _ => false) emptyWorld "ab" "pw").snd.snd.head? =
      some (Effect.dbFindByUsername "ab") ∧
    (login (fun _ _ => false) emptyWorld "ab" "pw").fst =
      { errors :=
          some [⟨"usernameOrEmail", "username or email doesn't exist"⟩] } := by
  have h1 :=
    (login_lookup_dispatch (fun _ _ => false) emptyWorld "a@b" "pw").1
      (by decide)
  have h2 :=
    (login_lookup_dispatch (fun _ _ => false) emptyWorld "ab" "pw").2
      (by decide)
  exact ⟨h1.1, h1.2 rfl, h2.1, h2.2 rfl⟩

/-- C6: once `login` has found the user, a failing password verification
returns the "password" FieldError and leaves the world, in particular the
session, unchanged; a passing one returns the user and writes the user's id
into the session. -/
theorem login_password_verification (verify : String → String → Bool)
    (w : World) (usernameOrEmail password : String) (u : User)
    (hfind : (if jsIncludes "@" usernameOrEmail then
          w.db.find? (fun x => x.email == usernameOrEmail)
        else w.db.find? (fun x => x.username == usernameOrEmail)) = some u) :
    (verify u.password password = false →
      (login verify w usernameOrEmail password).fst =
        { errors := some [⟨"password", "incorrect password"⟩] } ∧
      (login verify w usernameOrEmail password).snd.fst = w) ∧
    (verify u.password password = true →
      (login verify w usernameOrEmail password).fst = { user := some u } ∧
      (login verify w usernameOrEmail password).snd.fst.session =
        some u.id) := by
  by_cases hat : jsIncludes "@" usernameOrEmail = true
  · rw [if_pos hat] at hfind
    constructor <;> intro hv <;> simp [login, hat, hfind, hv]
  · rw [if_neg hat] at hfind
    constructor <;> intro hv <;> simp [login, hat, hfind, hv]

/-- C6 witness: with bob in the table, a failing verifier yields the
"password" FieldError and an unchanged world, and a passing one logs bob's
id into the session. -/
theorem login_password_verification_witness :
    (login (fun _ _ => false) bobWorld "bob" "x").fst =
      { errors := some [⟨"password", "incorrect password"⟩] } ∧
    (login (fun _ _ => false) bobWorld "bob" "x").snd.fst = bobWorld ∧
    (login (fun _ _ => true) bobWorld "bob" "x").fst =
      { user := some bobUser } ∧
    (login (fun _ _ => true) bobWorld "bob" "x").snd.fst.session = some 3 := by
  have h1 := login_password_verification (fun _ _ => false) bobWorld "bob"
    "x" bobUser (by decide)
  have h2 := login_password_verification (fun _ _ => true) bobWorld "bob"
    "x" bobUser (by decide)
  exact ⟨(h1.1 rfl).1, (h1.1 rfl).2, (h2.2 rfl).1, (h2.2 rfl).2⟩

/-- C9: when the insert fails with a detail that does not contain
"already exists", the catch block swallows the error, the local `user`
binding stays undefined, and the dereference `user.id` throws: `register`
ends in an unstructured TypeError, not a UserResponse. -/
theorem register_swallowed_insert_failure
    (validate : UsernamePasswordInput → Option (List FieldError))
    (hash : String → String) (detail : String) (nextId now : Nat)
    (w : World) (options : UsernamePasswordInput)
    (hval : validate options = none)
    (hdetail : jsIncludes "already exists" detail = false) :
    (register validate hash (some detail) nextId now w options).fst =
      .error "TypeError: Cannot read property id of undefined" := by
  simp [register, pgInsertUser, hval, hdetail]

/-- C9 witness: a "connection refused" insert failure makes `register`
throw instead of returning an envelope. -/
theorem register_swallowed_insert_failure_witness :
    (register (fun _ => none) (fun s => s) (some "connection refused") 1 0
        emptyWorld regOptions).fst =
      .error "TypeError: Cannot read property id of undefined" :=
  register_swallowed_insert_failure (fun _ => none) (fun s => s)
    "connection refused" 1 0 emptyWorld regOptions rfl (by decide)

def resetWorld : World :=
  ⟨[bobUser], [⟨FORGOT_PASSWORD_KEY_NS ++ "tk", "3", 259200⟩], none, []⟩

/-- C3: a valid token — present in the token store with a non-empty value
resolving to an existing user — is consumed exactly once: the first
`changePassword` call with a newPassword longer than 2 characters returns
the user carrying the new hash, persists that user in the table, deletes
the token, and writes the user's id into the session; an immediate second
call with the same token returns the same "token" FieldError an expired or
unknown token produces. -/
theorem changePassword_token_single_use (hash : String → String) (w : World)
    (token newPassword v : String) (u : User)
    (hlen : ¬ newPassword.length ≤ 2)
    (hget : redisGet w.redis (FORGOT_PASSWORD_KEY_NS ++ token) = some v)
    (hv : (v == "") = false)
    (hfind : w.db.find? (fun x => parseIntJS v == some (Int.ofNat x.id)) =
      some u) :
    (changePassword hash w token newPassword).fst =
      { user := some { u with password := hash newPassword } } ∧
    (changePassword hash w token newPassword).snd.fst.session = some u.id ∧
    redisGet (changePassword hash w token newPassword).snd.fst.redis
      (FORGOT_PASSWORD_KEY_NS ++ token) = none ∧
    { u with password := hash newPassword } ∈
      (changePassword hash w token newPassword).snd.fst.db ∧
    (changePassword hash
        (changePassword hash w token newPassword).snd.fst token
        newPassword).fst =
      { errors := some [⟨"token", "token expired"⟩] } := by
  have hrun : changePassword hash w token newPassword =
      ({ user := some { u with password := hash newPassword } },
       { w with
          db := w.db.map (fun x =>
            if x.id == u.id then { x with password := hash newPassword }
            else x),
          redis := redisDel w.redis (FORGOT_PASSWORD_KEY_NS ++ token),
          session := some u.id },
       [.redisGetKey (FORGOT_PASSWORD_KEY_NS ++ token),
        .dbFindById (parseIntJS v), .hashPassword newPassword,
        .dbUpdatePassword u.id (hash newPassword),
        .redisDelKey (FORGOT_PASSWORD_KEY_NS ++ token),
        .sessionSetUserId u.id]) := by
    have hfind2 := hfind
    simp only [Int.ofNat_eq_natCast] at hfind2
    simp [changePassword, hlen, hget, hv, hfind2]
  rw [hrun]
  refine ⟨rfl, rfl, redisGet_redisDel_self _ _, ?_, ?_⟩
  · have hu : u ∈ w.db := List.mem_of_find?_eq_some hfind
    have hmem := List.mem_map_of_mem (fun x =>
      if x.id == u.id then { x with password := hash newPassword } else x) hu
    simpa using hmem
  · simp [changePassword, hlen, redisGet_redisDel_self]

/-- C3 witness: bob's token "tk" changes his password once; replayed
immediately, it reports "token expired". -/
theorem changePassword_token_single_use_witness :
    (changePassword (fun s => String.append "H" s) resetWorld "tk"
        "newpw").fst =
      { user := some { bobUser with password := "Hnewpw" } } ∧
    (changePassword (fun s => String.append "H" s) resetWorld "tk"
        "newpw").snd.fst.session = some 3 ∧
    (changePassword (fun s => String.append "H" s)
        (changePassword (fun s => String.append "H" s) resetWorld "tk"
          "newpw").snd.fst
        "tk" "newpw").fst =
      { errors := some [⟨"token", "token expired"⟩] } := by
  have h := changePassword_token_single_use (fun s => String.append "H" s)
    resetWorld "tk" "newpw" "3" bobUser (by decide) (by decide) (by decide)
    (by decide)
  exact ⟨h.1, h.2.1, h.2.2.2.2⟩

/-- The envelope has exactly one populated side: a non-empty error list and
no user, or a user and no error list. -/
def exclusiveEnvelope (r : UserResponse) : Prop :=
  (∃ errs, r.errors = some errs ∧ errs ≠ [] ∧ r.user = none) ∨
  (∃ u, r.user = some u ∧ r.errors = none)

/-- C10: although the UserResponse type permits both or neither field, every
return path of `login` and of `changePassword` populates exactly one side:
either a non-empty error list with no user, or a user with no errors. -/
theorem login_changePassword_exclusive_envelope
    (verify : String → String → Bool) (hash : String → String) (w : World)
    (usernameOrEmail password token newPassword : String) :
    exclusiveEnvelope (login verify w usernameOrEmail password).fst ∧
    exclusiveEnvelope (changePassword hash w token newPassword).fst := by
  constructor
  · simp only [exclusiveEnvelope, login]
    split
    · exact Or.inl ⟨_, rfl, List.cons_ne_nil _ _, rfl⟩
    · split
      · exact Or.inr ⟨_, rfl, rfl⟩
      · exact Or.inl ⟨_, rfl, List.cons_ne_nil _ _, rfl⟩
  · simp only [exclusiveEnvelope, changePassword]
    split
    · exact Or.inl ⟨_, rfl, List.cons_ne_nil _ _, rfl⟩
    · split
      · exact Or.inl ⟨_, rfl, List.cons_ne_nil _ _, rfl⟩
      · split
        · exact Or.inl ⟨_, rfl, List.cons_ne_nil _ _, rfl⟩
        · split
          · exact Or.inl ⟨_, rfl, List.cons_ne_nil _ _, rfl⟩
          · exact Or.inr ⟨_, rfl, rfl⟩

end RedditClone
